import Mathlib

/-!
Shallow embedding of the tetraDX referral workflow (medics app) and proofs
about its specification.  Database rows are modelled as flat structures with
integer primary keys (referrals use their 10-character string id), the
database as lists of rows, and each HTTP view as a pure function from a
database and request data to a new database and an `Except` result.  Python
exceptions that escape a view (AttributeError, ValueError) are modelled as
dedicated error values.  Time is an abstract `Nat` passed in as `now`;
randomness is an oracle function passed in explicitly.
-/

namespace TetraDX

/-- Status strings of `TestStatus` in medics/models.py. -/
def validStatuses : List String := ["Pending", "Received", "Completed"]

/-- Row of the User table (authentication/models.py); `user_type` is one of
the `UserType` enum values. -/
structure User where
  id : Nat
  full_name : String
  user_type : String
deriving Repr, DecidableEq

/-- Row of the Facility table; `admin` is a nullable user id. -/
structure Facility where
  id : Nat
  name : String
  admin : Option Nat
deriving Repr, DecidableEq

/-- Row of the Facility_Branch table; `facility` is a nullable facility id. -/
structure FacilityBranch where
  id : Nat
  facility : Option Nat
  name : String
  is_active : Bool
deriving Repr, DecidableEq

/-- Row of the Branch_Technician table; both foreign keys are nullable. -/
structure BranchTechnician where
  user : Option Nat
  branch : Option Nat
  is_admin : Bool
deriving Repr, DecidableEq

/-- Row of the TestType table; `facility` is a nullable facility id. -/
structure TestType where
  id : Nat
  facility : Option Nat
  name : String
deriving Repr, DecidableEq

/-- Row of the Test table; `test_type` is a nullable test type id. -/
structure Test where
  id : Nat
  test_type : Option Nat
  name : String
deriving Repr, DecidableEq

/-- Row of the Patient table. -/
structure Patient where
  id : Nat
  full_name_or_id : String
  contact_number : Option String
deriving Repr, DecidableEq

/-- Row of the Referral table; the primary key is the generated 10-character
string id, `facility_branch` and `referred_by` are nullable foreign keys. -/
structure Referral where
  id : String
  facility_branch : Option Nat
  patient : Nat
  clinical_notes : Option String
  referred_by : Option Nat
  status : String
  referred_at : Nat
  updated_at : Nat
  completed_at : Option Nat
deriving Repr, DecidableEq

/-- Row of the ReferralTest table; `referral` and `test` are non-nullable
foreign keys. -/
structure ReferralTest where
  id : Nat
  referral : String
  test : Nat
  status : String
  created_at : Nat
  updated_at : Nat
  completed_at : Option Nat
deriving Repr, DecidableEq

/-- The relational store.  The two counters model the auto-increment primary
keys handed out to new Patient and ReferralTest rows. -/
structure DB where
  users : List User
  facilities : List Facility
  branches : List FacilityBranch
  technicians : List BranchTechnician
  testTypes : List TestType
  tests : List Test
  patients : List Patient
  referrals : List Referral
  referralTests : List ReferralTest
  nextPatientId : Nat
  nextReferralTestId : Nat
deriving Repr, DecidableEq

/-- Outcomes of a request that does not succeed.  The first group corresponds
to `api_exception` payloads and DRF `PermissionDenied`; `attributeError` and
`valueError` model Python exceptions that escape the view as HTTP 500;
`dbFailure` models a database-level write failure injected by an oracle. -/
inductive ApiError where
  | notFound
  | permissionDenied
  | invalidStatus
  | alreadyInState
  | validationError
  | missingReferralId
  | referralNotFound
  | branchNotFound
  | testNotFound
  | idGenerationFailed
  | multipleObjectsReturned
  | attributeError
  | valueError
  | paginationError
  | dbFailure
deriving Repr, DecidableEq

def DB.findUser (db : DB) (uid : Nat) : Option User :=
  db.users.find? (fun u => u.id == uid)

def DB.findFacility (db : DB) (fid : Nat) : Option Facility :=
  db.facilities.find? (fun f => f.id == fid)

def DB.findBranch (db : DB) (bid : Nat) : Option FacilityBranch :=
  db.branches.find? (fun b => b.id == bid)

def DB.findTestType (db : DB) (ttid : Nat) : Option TestType :=
  db.testTypes.find? (fun tt => tt.id == ttid)

def DB.findTest (db : DB) (tid : Nat) : Option Test :=
  db.tests.find? (fun t => t.id == tid)

def DB.findPatient (db : DB) (pid : Nat) : Option Patient :=
  db.patients.find? (fun p => p.id == pid)

def DB.findReferral (db : DB) (rid : String) : Option Referral :=
  db.referrals.find? (fun r => r.id == rid)

def DB.findReferralTest (db : DB) (rtid : Nat) : Option ReferralTest :=
  db.referralTests.find? (fun rt => rt.id == rtid)

/-- Saving a row with a primary key that is already present updates that row;
otherwise the row is inserted. -/
def upsertRT : List ReferralTest → ReferralTest → List ReferralTest
  | [], rt => [rt]
  | x :: xs, rt => if x.id == rt.id then rt :: xs else x :: upsertRT xs rt

/-- Counterpart of `upsertRT` for the Referral table. -/
def upsertReferral : List Referral → Referral → List Referral
  | [], r => [r]
  | x :: xs, r => if x.id == r.id then r :: xs else x :: upsertReferral xs r

/-- The `ReferralTest.clean` validation (medics/models.py).  The check runs
only when the referral has a facility branch and the test has a test type;
Django compares the two `Facility` objects, which amounts to comparing the
nullable facility ids.  A dangling foreign key cannot occur under database
integrity and is mapped to the same `attributeError` a missing object would
raise. -/
def cleanReferralTest (db : DB) (referral : Referral) (test : Test) : Except ApiError Unit :=
  match referral.facility_branch with
  | none => .ok ()
  | some bid =>
    match db.findBranch bid with
    | none => .error .attributeError
    | some br =>
      match test.test_type with
      | none => .ok ()
      | some ttid =>
        match db.findTestType ttid with
        | none => .error .attributeError
        | some tt =>
          if tt.facility == br.facility then .ok () else .error .validationError

/-- Resolve the referral and test referenced by a ReferralTest row and run
`ReferralTest.clean` on them. -/
def DB.cleanRT (db : DB) (rt : ReferralTest) : Except ApiError Unit :=
  match db.findReferral rt.referral, db.findTest rt.test with
  | some referral, some test => cleanReferralTest db referral test
  | _, _ => .error .attributeError

/-- `ReferralTest.save`: run `clean`, then write the row; `updated_at` is
refreshed by the `auto_now` column. -/
def DB.saveReferralTest (db : DB) (rt : ReferralTest) (now : Nat) : Except ApiError DB :=
  match db.cleanRT rt with
  | .error e => .error e
  | .ok _ =>
    .ok { db with referralTests := upsertRT db.referralTests { rt with updated_at := now } }

/-- The `BranchTechnician.objects.filter(branch=branch, user=user).exists()`
check used by the views; `branch` may be `none`, in which case rows with a
null branch match. -/
def isFacilityWorker (db : DB) (branch : Option Nat) (uid : Nat) : Bool :=
  db.technicians.any (fun bt => bt.branch == branch && bt.user == some uid)

/-- The completion stamp both update views apply: assign `completed_at` when
the new status is Completed, keep the old value otherwise. -/
def completionStamp (s : String) (now : Nat) (old : Option Nat) : Option Nat :=
  if s == "Completed" then some now else old

/-- Response payload of `UpdateTestStatusView.put`. -/
structure UpdateTestStatusResult where
  referral_id : String
  test_id : Nat
  status : String
  updated_at : Nat
  completed_at : Option Nat
deriving Repr, DecidableEq

/-- `UpdateTestStatusView.put` (medics/views/medics_views.py).  The request
body may lack the `status` key, hence `Option String`.  The view fetches the
ReferralTest, checks that the caller is the referring doctor or a technician
of the branch, validates the new status, rejects a no-change update, and only
then assigns the new status, stamps `completed_at` when the new status is
Completed, and saves.  The in-memory assignment to `referral.updated_at` is
never saved and is therefore not reflected in the store. -/
def updateTestStatus (db : DB) (referral_test_id : Nat) (new_status : Option String)
    (user : User) (now : Nat) : DB × Except ApiError UpdateTestStatusResult :=
  match db.findReferralTest referral_test_id with
  | none => (db, .error .notFound)
  | some referral_test =>
    match db.findReferral referral_test.referral with
    | none => (db, .error .attributeError)
    | some referral =>
      let is_doctor := referral.referred_by == some user.id
      let is_facility_worker := isFacilityWorker db referral.facility_branch user.id
      if !is_doctor && !is_facility_worker then (db, .error .permissionDenied)
      else
        match new_status with
        | none => (db, .error .invalidStatus)
        | some s =>
          if !(validStatuses.contains s) then (db, .error .invalidStatus)
          else if referral_test.status == s then (db, .error .alreadyInState)
          else
            let referral_test' := { referral_test with
              status := s,
              completed_at := completionStamp s now referral_test.completed_at }
            match db.saveReferralTest referral_test' now with
            | .error e => (db, .error e)
            | .ok db' =>
              (db', .ok { referral_id := referral.id, test_id := referral_test.id,
                          status := s, updated_at := now,
                          completed_at := referral_test'.completed_at })

/-- Character pool of `generate_referral_id`:
`string.ascii_uppercase + string.digits`. -/
def referralIdChars : List Char :=
  "ABCDEFGHIJKLMNOPQRSTUVWXYZ0123456789".toList

/-- `random.choices(population, k=k)` with the random source given as an
oracle: the i-th draw picks index `pick i` modulo the population size. -/
def randomChoices (population : List Char) (k : Nat) (pick : Nat → Nat) : List Char :=
  (List.range k).map (fun i => population.getD (pick i % population.length) 'A')

/-- Retry loop of `generate_referral_id`.  `attempt` numbers the attempts so
each one draws a fresh sample `pick attempt`; the fuel counts the remaining
attempts out of 100. -/
def genReferralIdAux (existing : List String) (pick : Nat → Nat → Nat) (attempt : Nat) :
    Nat → Option String
  | 0 => none
  | fuel + 1 =>
    let code := String.mk (randomChoices referralIdChars 10 (pick attempt))
    if !(existing.contains code) then some code
    else genReferralIdAux existing pick (attempt + 1) fuel

/-- `generate_referral_id` (medics/models.py): draw 10 characters from
uppercase letters and digits, retry on collision with an existing referral id,
give up (raise) after 100 attempts, modelled as `none`. -/
def generate_referral_id (existing : List String) (pick : Nat → Nat → Nat) : Option String :=
  genReferralIdAux existing pick 0 100

/-- Resolve `branch.facility.admin` for the permission decorator: `none`
means the attribute chain hits a null object and Python raises
AttributeError. -/
def branchFacilityAdmin (db : DB) (branch : Option Nat) : Option (Option Nat) :=
  match branch with
  | none => none
  | some bid =>
    match db.findBranch bid with
    | none => none
    | some br =>
      match br.facility with
      | none => none
      | some fid =>
        match db.findFacility fid with
        | none => none
        | some fac => some fac.admin

/-- The `referral_permission_required` decorator (medics/helpers.py): resolve
the referral, then admit the referring doctor, any technician of the branch,
or the admin of the branch facility.  The `branch.facility.admin` access is
evaluated unconditionally, so a referral with a null branch or a branch with
a null facility raises AttributeError for every caller. -/
def referral_permission_required (db : DB) (referral_id : Option String) (user : User) :
    Except ApiError Referral :=
  match referral_id with
  | none => .error .missingReferralId
  | some rid =>
    match db.findReferral rid with
    | none => .error .referralNotFound
    | some referral =>
      let is_doctor := referral.referred_by == some user.id
      let is_facility_worker := isFacilityWorker db referral.facility_branch user.id
      match branchFacilityAdmin db referral.facility_branch with
      | none => .error .attributeError
      | some adminId =>
        let is_facility_admin := adminId == some user.id
        if !(is_doctor || is_facility_worker || is_facility_admin) then
          .error .permissionDenied
        else .ok referral

/-- `GetAndUpdateReferralView.get`: the permission decorator, then the
referral is fetched again and serialized. -/
def getReferralView (db : DB) (referral_id : Option String) (user : User) :
    Except ApiError Referral :=
  match referral_permission_required db referral_id user with
  | .error e => .error e
  | .ok _ =>
    match referral_id with
    | none => .error .missingReferralId
    | some rid =>
      match db.findReferral rid with
      | none => .error .referralNotFound
      | some referral => .ok referral

/-- `GetAndUpdateReferralView.put` with `UpdateReferralStatusSerializer`: the
permission decorator, then validation of the status value and existence of
the referral, then the update, which stamps `completed_at` when the status
becomes Completed and saves the referral row. -/
def putReferralView (db : DB) (referral_id : Option String) (user : User)
    (status : String) (now : Nat) : DB × Except ApiError Referral :=
  match referral_permission_required db referral_id user with
  | .error e => (db, .error e)
  | .ok _ =>
    match referral_id with
    | none => (db, .error .missingReferralId)
    | some rid =>
      if !(validStatuses.contains status) then (db, .error .invalidStatus)
      else
        match db.findReferral rid with
        | none => (db, .error .referralNotFound)
        | some referral =>
          let referral' := { referral with
            status := status, updated_at := now,
            completed_at := completionStamp status now referral.completed_at }
          ({ db with referrals := upsertReferral db.referrals referral' }, .ok referral')

/-- Request body of `CreateReferralSerializer`. -/
structure CreateReferralRequest where
  patient_full_name_or_id : String
  patient_contact_number : Option String
  tests : List Nat
  branch_id : Nat
  clinical_notes : Option String
deriving Repr, DecidableEq

/-- The queryset filter
`Test.objects.filter(id__in=tests, test_type__facility=facility_branch.facility)`.
When the branch facility is null the filter compiles to an IS NULL condition
over a left join, so a test without a test type, or whose test type has a
null facility, matches. -/
def testFacilityFilterMatches (db : DB) (t : Test) (facility : Option Nat) : Bool :=
  match facility with
  | some fid =>
    match t.test_type with
    | none => false
    | some ttid =>
      match db.findTestType ttid with
      | none => false
      | some tt => tt.facility == some fid
  | none =>
    match t.test_type with
    | none => true
    | some ttid =>
      match db.findTestType ttid with
      | none => true
      | some tt => tt.facility == none

/-- `CreateReferralSerializer.validate`: resolve the branch, then keep only
the requested tests whose test type belongs to the branch facility; reject
the request if none remains. -/
def validateCreateReferral (db : DB) (req : CreateReferralRequest) :
    Except ApiError (FacilityBranch × List Test) :=
  match db.findBranch req.branch_id with
  | none => .error .branchNotFound
  | some facility_branch =>
    let referral_tests := db.tests.filter
      (fun t => req.tests.contains t.id && testFacilityFilterMatches db t facility_branch.facility)
    if referral_tests.isEmpty then .error .testNotFound
    else .ok (facility_branch, referral_tests)

/-- `Patient.objects.get_or_create(full_name_or_id=..., defaults=...)`:
reuse the unique existing row, create one if absent, and raise
MultipleObjectsReturned when several rows share the name. -/
def getOrCreatePatient (db : DB) (req : CreateReferralRequest) :
    Except ApiError (DB × Patient) :=
  match db.patients.filter (fun p => p.full_name_or_id == req.patient_full_name_or_id) with
  | [] =>
    let p : Patient := { id := db.nextPatientId,
                         full_name_or_id := req.patient_full_name_or_id,
                         contact_number := req.patient_contact_number }
    .ok ({ db with patients := db.patients ++ [p], nextPatientId := db.nextPatientId + 1 }, p)
  | [p] => .ok (db, p)
  | _ :: _ :: _ => .error .multipleObjectsReturned

/-- The creation loop of `CreateReferralSerializer.create`: each ReferralTest
is created by its own autocommitted `objects.create` call (there is no
enclosing transaction), so the store keeps everything written before a
failure.  `failTest k` injects a database-level failure into the k-th write;
`clean` runs before the row is written. -/
def createReferralTests (db : DB) (referral : Referral) (tests : List Test) (k : Nat)
    (failTest : Nat → Bool) (now : Nat) : DB × Except ApiError Unit :=
  match tests with
  | [] => (db, .ok ())
  | t :: rest =>
    let rt : ReferralTest := { id := db.nextReferralTestId, referral := referral.id,
                               test := t.id, status := "Pending", created_at := now,
                               updated_at := now, completed_at := none }
    match db.cleanRT rt with
    | .error e => (db, .error e)
    | .ok _ =>
      if failTest k then (db, .error .dbFailure)
      else
        createReferralTests
          { db with referralTests := upsertRT db.referralTests rt,
                    nextReferralTestId := db.nextReferralTestId + 1 }
          referral rest (k + 1) failTest now

/-- Response payload of `CreateReferralView.post`. -/
structure CreateReferralResult where
  referral_id : String
  patient_id : Nat
  branch_id : Nat
deriving Repr, DecidableEq

/-- The Referral row `Referral.objects.create` builds for a request: status
defaults to Pending and the timestamps to the request time. -/
def newReferralRow (rid : String) (facility_branch : FacilityBranch) (patientId : Nat)
    (req : CreateReferralRequest) (userId : Nat) (now : Nat) : Referral :=
  { id := rid, facility_branch := some facility_branch.id, patient := patientId,
    clinical_notes := req.clinical_notes, referred_by := some userId,
    status := "Pending", referred_at := now, updated_at := now, completed_at := none }

/-- `CreateReferralSerializer.create` after a successful `validate`: get or
create the patient, create the referral (whose id comes from
`generate_referral_id`), then create one ReferralTest per validated test.
No step is wrapped in a transaction. -/
def createReferralFromValidated (db : DB) (req : CreateReferralRequest)
    (facility_branch : FacilityBranch) (tests : List Test) (userId : Nat)
    (pick : Nat → Nat → Nat) (now : Nat) (failTest : Nat → Bool) :
    DB × Except ApiError CreateReferralResult :=
  match getOrCreatePatient db req with
  | .error e => (db, .error e)
  | .ok (db1, patient) =>
    match generate_referral_id (db1.referrals.map (fun r => r.id)) pick with
    | none => (db1, .error .idGenerationFailed)
    | some rid =>
      let referral : Referral := newReferralRow rid facility_branch patient.id req userId now
      let db2 := { db1 with referrals := referral :: db1.referrals }
      let result := createReferralTests db2 referral tests 0 failTest now
      (result.1,
       match result.2 with
       | .error e => .error e
       | .ok _ => .ok { referral_id := rid, patient_id := patient.id,
                        branch_id := facility_branch.id })

/-- `CreateReferralView.post`: only medical practitioners may create
referrals; then the serializer validates and creates. -/
def createReferral (db : DB) (req : CreateReferralRequest) (user : User)
    (pick : Nat → Nat → Nat) (now : Nat) (failTest : Nat → Bool) :
    DB × Except ApiError CreateReferralResult :=
  if !(user.user_type == "Medical Practitioner") then (db, .error .permissionDenied)
  else
    match validateCreateReferral db req with
    | .error e => (db, .error e)
    | .ok (facility_branch, tests) =>
      createReferralFromValidated db req facility_branch tests user.id pick now failTest

/-- Lowercase a character the way `str.lower` does for ASCII. -/
def pyLowerChar (c : Char) : Char :=
  if 65 ≤ c.toNat ∧ c.toNat ≤ 90 then Char.ofNat (c.toNat + 32) else c

/-- Lowercased character list of a string. -/
def pyLower (s : String) : List Char := s.toList.map pyLowerChar

/-- The `icontains` lookup: case-insensitive substring match. -/
def icontains (hay needle : String) : Bool :=
  let h := pyLower hay
  let n := pyLower needle
  (List.range (h.length + 1)).any (fun i => n.isPrefixOf (h.drop i))

/-- Numeric value of a decimal digit character. -/
def digitVal (c : Char) : Nat := c.toNat - 48

/-- Decimal value of a digit string. -/
def parseNatDigits (cs : List Char) : Nat :=
  cs.foldl (fun acc c => acc * 10 + digitVal c) 0

/-- Coercion of a string to an integer as `int(...)` and the ORM primary-key
coercion perform it: `none` models the ValueError raised on a non-numeric
string. -/
def pyInt (s : String) : Option Int :=
  match s.toList with
  | [] => none
  | '-' :: rest =>
    if !rest.isEmpty && rest.all Char.isDigit then some (-(parseNatDigits rest : Int))
    else none
  | cs => if cs.all Char.isDigit then some ((parseNatDigits cs : Nat) : Int) else none

/-- Lexicographic comparison of character lists (Python string order for the
code points involved here). -/
def leCharList : List Char → List Char → Bool
  | [], _ => true
  | _ :: _, [] => false
  | a :: as, b :: bs =>
    if a = b then leCharList as bs else decide (a.toNat ≤ b.toNat)

/-- String order used for `order_by` on a name column. -/
def leStr (a b : String) : Bool := leCharList a.toList b.toList

/-- Insert into a list sorted by `le`. -/
def insertSorted (le : α → α → Bool) (a : α) : List α → List α
  | [] => [a]
  | b :: bs => if le a b then a :: b :: bs else b :: insertSorted le a bs

/-- Insertion sort by `le`, modelling the ordering the database applies. -/
def sortWith (le : α → α → Bool) (l : List α) : List α :=
  l.foldr (insertSorted le) []

/-- Name of the referring doctor as the search and sort code reads it; a null
`referred_by` contributes SQL NULL, which never matches a non-empty pattern
and is modelled by the empty string. -/
def doctorName (db : DB) (r : Referral) : String :=
  match r.referred_by with
  | none => ""
  | some uid =>
    match db.findUser uid with
    | none => ""
    | some u => u.full_name

/-- Name of the patient of a referral. -/
def patientName (db : DB) (r : Referral) : String :=
  match db.findPatient r.patient with
  | none => ""
  | some p => p.full_name_or_id

/-- Branch name of a referral; a null branch contributes SQL NULL. -/
def branchName (db : DB) (r : Referral) : String :=
  match r.facility_branch with
  | none => ""
  | some bid =>
    match db.findBranch bid with
    | none => ""
    | some br => br.name

/-- Facility name of the branch of a referral. -/
def facilityName (db : DB) (r : Referral) : String :=
  match r.facility_branch with
  | none => ""
  | some bid =>
    match db.findBranch bid with
    | none => ""
    | some br =>
      match br.facility with
      | none => ""
      | some fid =>
        match db.findFacility fid with
        | none => ""
        | some f => f.name

/-- Name of the test type of a test; a null test type contributes NULL. -/
def testTypeName (db : DB) (t : Test) : String :=
  match t.test_type with
  | none => ""
  | some ttid =>
    match db.findTestType ttid with
    | none => ""
    | some tt => tt.name

/-- The search `Q` filter of both referral list views: case-insensitive
substring match on patient name, branch name, facility name, referring
doctor name, and the name and test type name of any test of the referral. -/
def referralMatchesSearch (db : DB) (r : Referral) (q : String) : Bool :=
  icontains (patientName db r) q
  || icontains (branchName db r) q
  || icontains (facilityName db r) q
  || icontains (doctorName db r) q
  || db.referralTests.any (fun rt =>
       rt.referral == r.id &&
       (match db.findTest rt.test with
        | none => false
        | some t => icontains t.name q || icontains (testTypeName db t) q))

/-- The sort map of `GetTechnicianReferralsView.get`: `time` and `doctor`
with an `asc`/`desc` direction (default `desc`); anything else falls back to
newest first. -/
def sortReferrals (db : DB) (rs : List Referral) (sort_by sort_type : Option String) :
    List Referral :=
  let st := sort_type.getD "desc"
  match sort_by with
  | some "time" =>
    if st == "desc" then sortWith (fun a b => b.referred_at ≤ a.referred_at) rs
    else sortWith (fun a b => a.referred_at ≤ b.referred_at) rs
  | some "doctor" =>
    if st == "desc" then sortWith (fun a b => leStr (doctorName db b) (doctorName db a)) rs
    else sortWith (fun a b => leStr (doctorName db a) (doctorName db b)) rs
  | _ => sortWith (fun a b => b.referred_at ≤ a.referred_at) rs

/-- One page of results together with the pagination block of the JSON
response. -/
structure PageData (α : Type) where
  items : List α
  current_page : Nat
  per_page : Nat
  total_pages : Nat
  total_count : Nat
  has_next : Bool
  has_previous : Bool
deriving Repr, DecidableEq

/-- `Paginator.num_pages` with `allow_empty_first_page`: an empty object list
still has one page. -/
def numPages (count per_page : Nat) : Nat := (max 1 count + per_page - 1) / per_page

/-- The pagination tail of both list views: page size defaults to 10 and the
page number to 1 when the query parameters are absent; `paginator.page` raises
EmptyPage for a page number below 1 or past the end, and the handler then
returns the last page.  A page size below 1 makes Django itself fail, modelled
as `paginationError`. -/
def paginate (l : List α) (page_number page_size : Option Int) :
    Except ApiError (PageData α) :=
  let per_page_i : Int := page_size.getD 10
  if per_page_i < 1 then .error .paginationError
  else
    let per_page := per_page_i.toNat
    let np := numPages l.length per_page
    let n_req : Int := page_number.getD 1
    let n : Nat := if n_req < 1 then np else if n_req > (np : Int) then np else n_req.toNat
    .ok { items := (l.drop ((n - 1) * per_page)).take per_page,
          current_page := n, per_page := per_page, total_pages := np,
          total_count := l.length, has_next := n < np, has_previous := 1 < n }

/-- The dictionary returned by `get_user_branches` (medics/helpers.py),
despite its docstring promising a list of branch ids. -/
structure UserBranchesDict where
  branches : List FacilityBranch
  facility : Option Nat
deriving Repr, DecidableEq

/-- The keys of that dictionary, in insertion order; iterating the dictionary
yields exactly these strings. -/
def userBranchesDictKeys : List String := ["branches", "facility"]

/-- `get_user_branches`: all branches of the facility the user administers,
else the first branch the user is assigned to as a technician, else nothing.
A technician row with a null branch makes the `first_assignment.branch.facility`
access raise AttributeError. -/
def get_user_branches (db : DB) (uid : Nat) : Except ApiError UserBranchesDict :=
  match db.facilities.find? (fun f => f.admin == some uid) with
  | some fac =>
    .ok { branches := db.branches.filter (fun b => b.facility == some fac.id),
          facility := some fac.id }
  | none =>
    match db.technicians.filter (fun bt => bt.user == some uid) with
    | [] => .ok { branches := [], facility := none }
    | bt :: _ =>
      match bt.branch with
      | none => .error .attributeError
      | some bid =>
        match db.findBranch bid with
        | none => .error .attributeError
        | some br => .ok { branches := [br], facility := br.facility }

/-- The queryset pipeline of `GetTechnicianReferralsView.get` as it would run
on a list of branch primary keys: filter by branch, apply the search filter,
sort, project to referral ids, paginate. -/
def technicianListCore (db : DB) (branchIds : List Int) (sort_by sort_type : Option String)
    (page_number page_size : Option Int) (search_query : String) :
    Except ApiError (PageData String) :=
  let qs0 := db.referrals.filter
    (fun r => branchIds.any (fun b => 0 ≤ b && r.facility_branch == some b.toNat))
  let qs1 := if search_query == "" then qs0
             else qs0.filter (fun r => referralMatchesSearch db r search_query)
  let qs2 := sortReferrals db qs1 sort_by sort_type
  paginate (qs2.map (fun r => r.id)) page_number page_size

/-- `GetTechnicianReferralsView.get`: after the user-type check the view
filters `Referral.objects` with `facility_branch__in=user_branches`, where
`user_branches` is the dictionary returned by `get_user_branches` (its
truthiness makes the emptiness fallback dead code).  Iterating the dictionary
yields its string keys, and coercing a key to the integer primary key of
FacilityBranch raises ValueError, modelled by the `pyInt` failure branch. -/
def getTechnicianReferrals (db : DB) (user : User) (sort_by sort_type : Option String)
    (page_number page_size : Option Int) (search_query : String) :
    Except ApiError (PageData String) :=
  if !(user.user_type == "Lab Technician") then .error .permissionDenied
  else
    match get_user_branches db user.id with
    | .error e => .error e
    | .ok _ =>
      if userBranchesDictKeys.all (fun k => (pyInt k).isSome) then
        technicianListCore db (userBranchesDictKeys.filterMap pyInt)
          sort_by sort_type page_number page_size search_query
      else .error .valueError

/-- The `data_summary` block of the practitioner list response. -/
structure PractitionerSummary where
  total_referrals : Nat
  total_completed : Nat
  total_pending : Nat
  total_received : Nat
deriving Repr, DecidableEq

/-- `GetPractitionerReferralsView.get`: referrals of the calling
practitioner, newest first, optionally filtered by the search query; summary
counts are taken on the filtered queryset, then the id list is paginated. -/
def getPractitionerReferrals (db : DB) (user : User) (page_number page_size : Option Int)
    (search_query : String) : Except ApiError (PageData String × PractitionerSummary) :=
  if !(user.user_type == "Medical Practitioner") then .error .permissionDenied
  else
    let qs0 := sortWith (fun a b => b.referred_at ≤ a.referred_at)
      (db.referrals.filter (fun r => r.referred_by == some user.id))
    let qs := if search_query == "" then qs0
              else qs0.filter (fun r => referralMatchesSearch db r search_query)
    let summary : PractitionerSummary :=
      { total_referrals := qs.length,
        total_completed := (qs.filter (fun r => r.status == "Completed")).length,
        total_pending := (qs.filter (fun r => r.status == "Pending")).length,
        total_received := (qs.filter (fun r => r.status == "Received")).length }
    match paginate (qs.map (fun r => r.id)) page_number page_size with
    | .error e => .error e
    | .ok page => .ok (page, summary)

/-! Concrete fixtures used by witnesses and counterexamples. -/

/-- A store with one doctor, one referral without a facility branch, and one
pending referral test. -/
def dbSolo : DB :=
  { users := [{ id := 10, full_name := "Dr Smith", user_type := "Medical Practitioner" }],
    facilities := [], branches := [], technicians := [],
    testTypes := [],
    tests := [{ id := 1, test_type := none, name := "CBC" }],
    patients := [{ id := 1, full_name_or_id := "John Doe", contact_number := none }],
    referrals := [{ id := "R1", facility_branch := none, patient := 1,
                    clinical_notes := none, referred_by := some 10, status := "Pending",
                    referred_at := 0, updated_at := 0, completed_at := none }],
    referralTests := [{ id := 1, referral := "R1", test := 1, status := "Pending",
                        created_at := 0, updated_at := 0, completed_at := none }],
    nextPatientId := 2, nextReferralTestId := 2 }

/-- The doctor of `dbSolo`. -/
def drSmith : User := { id := 10, full_name := "Dr Smith", user_type := "Medical Practitioner" }

/-- The doctor completes the test at time 5 and moves it back to Pending at
time 6. -/
def dbC1after : DB :=
  (updateTestStatus (updateTestStatus dbSolo 1 (some "Completed") drSmith 5).1
    1 (some "Pending") drSmith 6).1


/-- The stored row after those two updates. -/
def rtC1final : ReferralTest :=
  { id := 1, referral := "R1", test := 1, status := "Pending",
    created_at := 0, updated_at := 6, completed_at := some 5 }


/-- A technician-admin store: facility 1 is administered by user 30, branch 1
belongs to it, user 20 is its only technician, and referral R1 was made by
doctor 10. -/
def labAdmin : User := { id := 30, full_name := "Admin Ann", user_type := "Lab Technician" }


/-- The store for the permission claims. -/
def dbPerm : DB :=
  { users := [{ id := 10, full_name := "Dr Smith", user_type := "Medical Practitioner" },
              { id := 20, full_name := "Tech Tom", user_type := "Lab Technician" },
              labAdmin],
    facilities := [{ id := 1, name := "Lab", admin := some 30 }],
    branches := [{ id := 1, facility := some 1, name := "Main", is_active := true }],
    technicians := [{ user := some 20, branch := some 1, is_admin := false }],
    testTypes := [{ id := 1, facility := some 1, name := "Blood" }],
    tests := [{ id := 1, test_type := some 1, name := "CBC" }],
    patients := [{ id := 1, full_name_or_id := "John Doe", contact_number := none }],
    referrals := [{ id := "R1", facility_branch := some 1, patient := 1,
                    clinical_notes := none, referred_by := some 10, status := "Pending",
                    referred_at := 0, updated_at := 0, completed_at := none }],
    referralTests := [{ id := 1, referral := "R1", test := 1, status := "Pending",
                        created_at := 0, updated_at := 0, completed_at := none }],
    nextPatientId := 2, nextReferralTestId := 2 }


/-- A practitioner who creates referrals in the creation fixtures. -/
def practUser : User := { id := 10, full_name := "Dr Who", user_type := "Medical Practitioner" }


/-- A two-facility store: branch 1 belongs to facility 1, test types 1 and 2
belong to facilities 1 and 2, tests 1 and 2 are of type 1 and test 3 of
type 2. -/
def dbCreate : DB :=
  { users := [practUser],
    facilities := [{ id := 1, name := "LabA", admin := none },
                   { id := 2, name := "LabB", admin := none }],
    branches := [{ id := 1, facility := some 1, name := "Main", is_active := true }],
    technicians := [],
    testTypes := [{ id := 1, facility := some 1, name := "Blood" },
                  { id := 2, facility := some 2, name := "Imaging" }],
    tests := [{ id := 1, test_type := some 1, name := "CBC" },
              { id := 2, test_type := some 1, name := "ESR" },
              { id := 3, test_type := some 2, name := "XRay" }],
    patients := [], referrals := [], referralTests := [],
    nextPatientId := 1, nextReferralTestId := 1 }


/-- A request naming tests 1, 2 and the cross-facility test 3 against
branch 1. -/
def reqCreate : CreateReferralRequest :=
  { patient_full_name_or_id := "John Doe", patient_contact_number := none,
    tests := [1, 2, 3], branch_id := 1, clinical_notes := none }


/-- The constant randomness oracle: always index 0, producing AAAAAAAAAA. -/
def pick0 : Nat → Nat → Nat := fun _ _ => 0


/-- The failure oracle that makes the second ReferralTest insert fail. -/
def failSecond : Nat → Bool := fun k => k == 1


/-- The practitioner of the list fixtures. -/
def docDan : User := { id := 1, full_name := "Doc Dan", user_type := "Medical Practitioner" }


/-- The technician of the list fixtures, assigned to branch 1. -/
def techTia : User := { id := 2, full_name := "Tech Tia", user_type := "Lab Technician" }


/-- A store with three referrals by the practitioner to branch 1, referred at
times 1, 2 and 3. -/
def dbLists : DB :=
  { users := [docDan, techTia],
    facilities := [{ id := 1, name := "Lab", admin := none }],
    branches := [{ id := 1, facility := some 1, name := "Main", is_active := true }],
    technicians := [{ user := some 2, branch := some 1, is_admin := false }],
    testTypes := [], tests := [],
    patients := [{ id := 1, full_name_or_id := "John Doe", contact_number := none },
                 { id := 2, full_name_or_id := "Jane Roe", contact_number := none },
                 { id := 3, full_name_or_id := "Bob Poe", contact_number := none }],
    referrals := [{ id := "R1", facility_branch := some 1, patient := 1,
                    clinical_notes := none, referred_by := some 1, status := "Pending",
                    referred_at := 1, updated_at := 1, completed_at := none },
                  { id := "R2", facility_branch := some 1, patient := 2,
                    clinical_notes := none, referred_by := some 1, status := "Pending",
                    referred_at := 2, updated_at := 2, completed_at := none },
                  { id := "R3", facility_branch := some 1, patient := 3,
                    clinical_notes := none, referred_by := some 1, status := "Pending",
                    referred_at := 3, updated_at := 3, completed_at := none }],
    referralTests := [], nextPatientId := 4, nextReferralTestId := 1 }

/-! Helper lemmas about row saves. -/

theorem find_upsertRT (l : List ReferralTest) (y : ReferralTest) :
    (upsertRT l y).find? (fun x => x.id == y.id) = some y := by
  induction l with
  | nil => simp [upsertRT, List.find?]
  | cons x xs ih =>
    by_cases h : x.id = y.id
    · simp [upsertRT, h, List.find?]
    · have hb : (x.id == y.id) = false := by simpa using h
      simp only [upsertRT]
      rw [if_neg (by simpa using h)]
      simpa [List.find?, hb] using ih

theorem mem_upsertRT {a : ReferralTest} {l : List ReferralTest} {y : ReferralTest}
    (h : a ∈ upsertRT l y) : a ∈ l ∨ a = y := by
  induction l with
  | nil => simpa [upsertRT] using h
  | cons x xs ih =>
    by_cases hx : x.id = y.id
    · simp only [upsertRT, hx, beq_self_eq_true, if_true] at h
      rcases List.mem_cons.mp h with h | h
      · exact Or.inr h
      · exact Or.inl (List.mem_cons_of_mem _ h)
    · simp only [upsertRT] at h
      rw [if_neg (by simpa using hx)] at h
      rcases List.mem_cons.mp h with h | h
      · exact Or.inl (h ▸ List.mem_cons_self _ _)
      · rcases ih h with h | h
        · exact Or.inl (List.mem_cons_of_mem _ h)
        · exact Or.inr h

/-- Changing only the status and completion fields of a row does not change
what `ReferralTest.clean` sees, since it reads only the two foreign keys. -/
theorem cleanRT_status_congr (db : DB) (rt : ReferralTest) (s : String) (c : Option Nat) :
    db.cleanRT { rt with status := s, completed_at := c } = db.cleanRT rt := rfl

/-! Claim C1. -/

/-- C1, counterexample: after the update sequence Completed-then-Pending the
stored row has status Pending but still carries `completed_at = some 5`, so
`completed_at` is NOT non-null exactly when the last status-changing update
set the status to Completed: the claimed iff fails on this reachable state. -/
theorem c1_counterexample :
    dbC1after.findReferralTest 1 = some rtC1final ∧
    rtC1final.status ≠ "Completed" ∧
    rtC1final.completed_at ≠ none ∧
    ¬(rtC1final.completed_at ≠ none ↔ rtC1final.status = "Completed") := by
  refine ⟨by decide, by decide, by decide, by decide⟩

/-- C1, amended: a successful status update assigns `completed_at` exactly
when the new status is Completed and leaves it unchanged otherwise; it is
never cleared, so moving a Completed test back to Pending or Received keeps
the old completion timestamp. -/
theorem c1_completed_at_only_on_completion
    (db : DB) (rtid : Nat) (s : String) (user : User) (now : Nat)
    (resp : UpdateTestStatusResult)
    (h : (updateTestStatus db rtid (some s) user now).2 = .ok resp) :
    ∃ rt, db.findReferralTest rtid = some rt ∧
      (updateTestStatus db rtid (some s) user now).1.findReferralTest rtid =
        some { rt with
               status := s
               updated_at := now
               completed_at := completionStamp s now rt.completed_at } := by
  cases hrt : db.findReferralTest rtid with
  | none => simp [updateTestStatus, hrt] at h
  | some rt =>
    cases href : db.findReferral rt.referral with
    | none => simp [updateTestStatus, hrt, href] at h
    | some referral =>
      refine ⟨rt, rfl, ?_⟩
      have hid : rt.id = rtid := by
        have := List.find?_some hrt
        simpa using this
      simp only [updateTestStatus, hrt, href] at h ⊢
      by_cases hperm :
          (!(referral.referred_by == some user.id) &&
            !(isFacilityWorker db referral.facility_branch user.id)) = true
      · rw [if_pos hperm] at h
        simp at h
      · have hb := Bool.not_eq_true _ |>.mp hperm
        rw [if_neg (by simp [hb])] at h ⊢
        by_cases hv : (validStatuses.contains s) = true
        · rw [if_neg (by rw [hv]; decide)] at h ⊢
          by_cases he : (rt.status == s) = true
          · rw [if_pos he] at h
            simp at h
          · have hbe := Bool.not_eq_true _ |>.mp he
            rw [if_neg (by simp [hbe])] at h ⊢
            cases hclean : db.saveReferralTest
                { rt with
                  status := s
                  completed_at := completionStamp s now rt.completed_at } now with
            | error e => rw [hclean] at h; simp at h
            | ok db' =>
              simp only [DB.saveReferralTest] at hclean
              cases hcl : db.cleanRT
                  { rt with
                    status := s
                    completed_at := completionStamp s now rt.completed_at } with
              | error e => rw [hcl] at hclean; simp at hclean
              | ok u =>
                rw [hcl] at hclean
                simp only [Except.ok.injEq] at hclean
                subst hclean
                show DB.findReferralTest _ rtid = _
                simp only [DB.findReferralTest]
                subst hid
                exact find_upsertRT db.referralTests
                  { rt with
                    status := s
                    updated_at := now
                    completed_at := completionStamp s now rt.completed_at }
        · rw [if_pos (by rw [Bool.not_eq_true _ |>.mp hv]; decide)] at h
          simp at h

/-- C1 witness: the fields of the amended theorem evaluated on the concrete
store, for a successful transition to Received (no completion stamp) made by
the referring doctor. -/
theorem c1_witness :
    ∃ rt, dbSolo.findReferralTest 1 = some rt ∧
      (updateTestStatus dbSolo 1 (some "Received") drSmith 5).1.findReferralTest 1 =
        some { rt with
               status := "Received"
               updated_at := 5
               completed_at := completionStamp "Received" 5 rt.completed_at } :=
  c1_completed_at_only_on_completion dbSolo 1 "Received" drSmith 5
    { referral_id := "R1", test_id := 1, status := "Received",
      updated_at := 5, completed_at := none } rfl

/-! Claim C2. -/

/-- C2: for an existing ReferralTest whose row passes its own validation,
updated by an authorized actor (the referring doctor or a technician of the
branch): the call fails when the new status is not one of Pending, Received,
Completed; it fails when the new status equals the current status; and in
every other case it succeeds, storing the new status, all without touching
the store on failure. -/
theorem c2_update_status_cases
    (db : DB) (rtid : Nat) (s : String) (user : User) (now : Nat)
    (rt : ReferralTest) (referral : Referral)
    (hrt : db.findReferralTest rtid = some rt)
    (href : db.findReferral rt.referral = some referral)
    (hauth : referral.referred_by = some user.id ∨
             isFacilityWorker db referral.facility_branch user.id = true)
    (hclean : db.cleanRT rt = .ok ()) :
    (s ∉ validStatuses →
      updateTestStatus db rtid (some s) user now = (db, .error .invalidStatus))
    ∧ (s ∈ validStatuses → rt.status = s →
      updateTestStatus db rtid (some s) user now = (db, .error .alreadyInState))
    ∧ (s ∈ validStatuses → rt.status ≠ s →
      updateTestStatus db rtid (some s) user now =
        ({ db with
           referralTests := upsertRT db.referralTests
             { rt with
               status := s
               updated_at := now
               completed_at := completionStamp s now rt.completed_at } },
         .ok { referral_id := referral.id, test_id := rt.id, status := s,
               updated_at := now,
               completed_at := completionStamp s now rt.completed_at })) := by
  have hperm : (!(referral.referred_by == some user.id) &&
      !(isFacilityWorker db referral.facility_branch user.id)) = false := by
    rcases hauth with h | h
    · simp [h]
    · simp [h]
  refine ⟨?_, ?_, ?_⟩
  · intro hs
    have hc : (validStatuses.contains s) = false := by simpa using hs
    simp only [updateTestStatus, hrt, href]
    rw [if_neg (by simp [hperm])]
    rw [if_pos (by rw [hc]; decide)]
  · intro hs he
    have hc : (validStatuses.contains s) = true := by simpa using hs
    simp only [updateTestStatus, hrt, href]
    rw [if_neg (by simp [hperm])]
    rw [if_neg (by rw [hc]; decide)]
    rw [if_pos (by simp [he])]
  · intro hs hne
    have hc : (validStatuses.contains s) = true := by simpa using hs
    simp only [updateTestStatus, hrt, href]
    rw [if_neg (by simp [hperm])]
    rw [if_neg (by rw [hc]; decide)]
    rw [if_neg (by simp [hne])]
    simp only [DB.saveReferralTest, cleanRT_status_congr, hclean]

/-- C2 witness: the three cases instantiated on the concrete store for the
referring doctor moving the pending test to Received. -/
theorem c2_witness :
    ("Received" ∉ validStatuses →
      updateTestStatus dbSolo 1 (some "Received") drSmith 5 =
        (dbSolo, .error .invalidStatus))
    ∧ ("Received" ∈ validStatuses →
        ({ id := 1, referral := "R1", test := 1, status := "Pending", created_at := 0,
           updated_at := 0, completed_at := none } : ReferralTest).status = "Received" →
      updateTestStatus dbSolo 1 (some "Received") drSmith 5 =
        (dbSolo, .error .alreadyInState))
    ∧ ("Received" ∈ validStatuses →
        ({ id := 1, referral := "R1", test := 1, status := "Pending", created_at := 0,
           updated_at := 0, completed_at := none } : ReferralTest).status ≠ "Received" →
      updateTestStatus dbSolo 1 (some "Received") drSmith 5 =
        ({ dbSolo with
           referralTests := upsertRT dbSolo.referralTests
             { ({ id := 1, referral := "R1", test := 1, status := "Pending",
                  created_at := 0, updated_at := 0, completed_at := none } : ReferralTest) with
               status := "Received"
               updated_at := 5
               completed_at := completionStamp "Received" 5 none } },
         .ok { referral_id := "R1", test_id := 1, status := "Received",
               updated_at := 5,
               completed_at := completionStamp "Received" 5 none })) :=
  c2_update_status_cases dbSolo 1 "Received" drSmith 5
    { id := 1, referral := "R1", test := 1, status := "Pending", created_at := 0,
      updated_at := 0, completed_at := none }
    { id := "R1", facility_branch := none, patient := 1, clinical_notes := none,
      referred_by := some 10, status := "Pending", referred_at := 0, updated_at := 0,
      completed_at := none }
    (by decide) (by decide) (Or.inl (by decide)) rfl

/-! Claim C9. -/

/-- Every branch of the update view either succeeds or returns the store it
was given. -/
theorem updateTestStatus_ok_or_unchanged (db : DB) (rtid : Nat) (ns : Option String)
    (user : User) (now : Nat) :
    (updateTestStatus db rtid ns user now).2.isOk = true ∨
    (updateTestStatus db rtid ns user now).1 = db := by
  simp only [updateTestStatus]
  repeat' split
  all_goals simp [Except.isOk, Except.toBool]

/-- C9: whenever the test-status update fails, for any reason, the error is
raised before anything is written, so the resulting store is exactly the
input store. -/
theorem c9_error_leaves_state_unchanged (db : DB) (rtid : Nat) (ns : Option String)
    (user : User) (now : Nat) (e : ApiError)
    (h : (updateTestStatus db rtid ns user now).2 = .error e) :
    (updateTestStatus db rtid ns user now).1 = db := by
  rcases updateTestStatus_ok_or_unchanged db rtid ns user now with hok | heq
  · rw [h] at hok
    simp [Except.isOk, Except.toBool] at hok
  · exact heq

/-- C9 witness: an update of a ReferralTest id that does not exist leaves the
concrete store unchanged. -/
theorem c9_witness :
    (updateTestStatus dbSolo 99 (some "Received") drSmith 5).1 = dbSolo :=
  c9_error_leaves_state_unchanged dbSolo 99 (some "Received") drSmith 5 .notFound rfl

/-! Claim C10. -/

/-- The clean validation can only succeed, hit a null object, or report the
facility mismatch. -/
theorem cleanRT_cases (db : DB) (rt : ReferralTest) :
    db.cleanRT rt = .ok () ∨ db.cleanRT rt = .error .attributeError ∨
    db.cleanRT rt = .error .validationError := by
  simp only [DB.cleanRT, cleanReferralTest]
  repeat' split
  all_goals simp

/-- Saving a ReferralTest never reports a permission error. -/
theorem saveReferralTest_not_perm (db : DB) (rt : ReferralTest) (now : Nat) :
    db.saveReferralTest rt now ≠ .error .permissionDenied := by
  rcases cleanRT_cases db rt with hc | hc | hc <;>
    simp [DB.saveReferralTest, hc]

/-- C10: the facility-consistency validation runs only when both the referral
branch and the test type are present; a ReferralTest whose referral has no
facility branch, or whose test has no test type, is never rejected with the
facility-mismatch validation error, neither by `clean` nor by `save`. -/
theorem c10_clean_skips_null_branch_or_type
    (db : DB) (rt : ReferralTest) (referral : Referral) (test : Test) (now : Nat)
    (href : db.findReferral rt.referral = some referral)
    (htest : db.findTest rt.test = some test)
    (hnull : referral.facility_branch = none ∨ test.test_type = none) :
    cleanReferralTest db referral test ≠ .error .validationError ∧
    db.saveReferralTest rt now ≠ .error .validationError := by
  have hcr : db.cleanRT rt = cleanReferralTest db referral test := by
    simp [DB.cleanRT, href, htest]
  have h1 : cleanReferralTest db referral test ≠ .error .validationError := by
    rcases hnull with hb | ht
    · simp [cleanReferralTest, hb]
    · simp only [cleanReferralTest, ht]
      repeat' split
      all_goals simp
  refine ⟨h1, ?_⟩
  cases hval : cleanReferralTest db referral test with
  | ok u => simp [DB.saveReferralTest, hcr, hval]
  | error e =>
    have he : e ≠ .validationError := by
      intro hcontra
      exact h1 (hcontra ▸ hval)
    simp [DB.saveReferralTest, hcr, hval, he]

/-- C10 witness: a ReferralTest whose referral has no branch passes clean and
save on the concrete store. -/
theorem c10_witness :
    cleanReferralTest dbSolo
        { id := "R1", facility_branch := none, patient := 1, clinical_notes := none,
          referred_by := some 10, status := "Pending", referred_at := 0, updated_at := 0,
          completed_at := none }
        { id := 1, test_type := none, name := "CBC" } ≠ .error .validationError ∧
    dbSolo.saveReferralTest
        { id := 1, referral := "R1", test := 1, status := "Pending", created_at := 0,
          updated_at := 0, completed_at := none } 3 ≠ .error .validationError :=
  c10_clean_skips_null_branch_or_type dbSolo
    { id := 1, referral := "R1", test := 1, status := "Pending", created_at := 0,
      updated_at := 0, completed_at := none }
    { id := "R1", facility_branch := none, patient := 1, clinical_notes := none,
      referred_by := some 10, status := "Pending", referred_at := 0, updated_at := 0,
      completed_at := none }
    { id := 1, test_type := none, name := "CBC" } 3
    (by decide) (by decide) (Or.inl rfl)

/-! Claim C3. -/

/-- C3, counterexample: the facility admin (user 30), who is neither the
referring doctor nor a technician of the branch, can read the referral and
update its status, yet receives a permission error on the per-test status
update, refuting the claim that the same set of users may perform all three
operations. -/
theorem c3_counterexample :
    getReferralView dbPerm (some "R1") labAdmin =
      .ok { id := "R1", facility_branch := some 1, patient := 1, clinical_notes := none,
            referred_by := some 10, status := "Pending", referred_at := 0, updated_at := 0,
            completed_at := none } ∧
    (putReferralView dbPerm (some "R1") labAdmin "Received" 7).2 =
      .ok { id := "R1", facility_branch := some 1, patient := 1, clinical_notes := none,
            referred_by := some 10, status := "Received", referred_at := 0, updated_at := 7,
            completed_at := none } ∧
    (updateTestStatus dbPerm 1 (some "Received") labAdmin 7).2 =
      .error .permissionDenied :=
  ⟨rfl, rfl, rfl⟩

/-- The permission error of the per-test update is equivalent to the caller
being neither the referring doctor nor a technician of the branch; the
facility admin is not part of this check. -/
theorem updateTestStatus_perm_error_iff
    (db : DB) (rtid : Nat) (ns : Option String) (user : User) (now : Nat)
    (rt : ReferralTest) (referral : Referral)
    (hrt : db.findReferralTest rtid = some rt)
    (href : db.findReferral rt.referral = some referral) :
    ((updateTestStatus db rtid ns user now).2 = .error .permissionDenied ↔
      ¬(referral.referred_by = some user.id ∨
        isFacilityWorker db referral.facility_branch user.id = true)) := by
  simp only [updateTestStatus, hrt, href]
  cases hb : (!(referral.referred_by == some user.id) &&
      !(isFacilityWorker db referral.facility_branch user.id)) with
  | true =>
    rw [if_pos rfl]
    have hr : ¬(referral.referred_by = some user.id ∨
        isFacilityWorker db referral.facility_branch user.id = true) := by
      rcases Bool.and_eq_true _ _ |>.mp hb with ⟨ha, hw0⟩
      have h1 : (referral.referred_by == some user.id) = false := by simpa using ha
      have h2 : isFacilityWorker db referral.facility_branch user.id = false := by
        simpa using hw0
      rintro (hd | hw)
      · rw [hd] at h1
        simp at h1
      · rw [hw] at h2
        simp at h2
    exact iff_of_true rfl hr
  | false =>
    rw [if_neg (by simp)]
    have hright : referral.referred_by = some user.id ∨
        isFacilityWorker db referral.facility_branch user.id = true := by
      rcases Bool.and_eq_false_iff.mp hb with h1 | h1
      · left
        simpa using h1
      · right
        simpa using h1
    refine iff_of_false ?_ (not_not_intro hright)
    intro hcontra
    cases ns with
    | none => simp at hcontra
    | some s =>
      simp only at hcontra
      split at hcontra
      · simp at hcontra
      · split at hcontra
        · simp at hcontra
        · split at hcontra
          · rename_i e heq
            simp at hcontra
            subst hcontra
            exact saveReferralTest_not_perm db _ now heq
          · simp at hcontra

/-- C3, amended: reading and updating a referral is permitted exactly to the
referring doctor, the technicians of its branch, and the admin of the branch
facility, while the per-test status update is permitted exactly to the
referring doctor and the technicians of the branch: the facility admin is
absent from the latter check and is denied there unless also doctor or
technician. -/
theorem c3_permission_characterization
    (db : DB) (user : User) (rtid : Nat) (ns : Option String) (now : Nat)
    (rt : ReferralTest) (referral : Referral) (admin : Option Nat)
    (hrt : db.findReferralTest rtid = some rt)
    (href : db.findReferral rt.referral = some referral)
    (hadmin : branchFacilityAdmin db referral.facility_branch = some admin) :
    ((referral_permission_required db (some rt.referral) user).isOk = true ↔
      (referral.referred_by = some user.id ∨
       isFacilityWorker db referral.facility_branch user.id = true ∨
       admin = some user.id))
    ∧ ((updateTestStatus db rtid ns user now).2 = .error .permissionDenied ↔
      ¬(referral.referred_by = some user.id ∨
        isFacilityWorker db referral.facility_branch user.id = true)) := by
  refine ⟨?_, updateTestStatus_perm_error_iff db rtid ns user now rt referral hrt href⟩
  simp only [referral_permission_required, href, hadmin]
  cases hb : (referral.referred_by == some user.id ||
      isFacilityWorker db referral.facility_branch user.id || admin == some user.id) with
  | true =>
    rw [if_neg (by decide)]
    have hr : referral.referred_by = some user.id ∨
        isFacilityWorker db referral.facility_branch user.id = true ∨
        admin = some user.id := by
      rcases Bool.or_eq_true _ _ |>.mp hb with h | h
      · rcases Bool.or_eq_true _ _ |>.mp h with h1 | h1
        · exact Or.inl (by simpa using h1)
        · exact Or.inr (Or.inl h1)
      · exact Or.inr (Or.inr (by simpa using h))
    exact iff_of_true (by simp [Except.isOk, Except.toBool]) hr
  | false =>
    rw [if_pos (by decide)]
    have hr : ¬(referral.referred_by = some user.id ∨
        isFacilityWorker db referral.facility_branch user.id = true ∨
        admin = some user.id) := by
      rcases Bool.or_eq_false_iff.mp hb with ⟨h12, h3⟩
      rcases Bool.or_eq_false_iff.mp h12 with ⟨h1, h2⟩
      rintro (hd | hw | ha)
      · rw [hd] at h1
        simp at h1
      · rw [hw] at h2
        simp at h2
      · rw [ha] at h3
        simp at h3
    exact iff_of_false (by simp [Except.isOk, Except.toBool]) hr

/-- C3 witness: the characterization applied to the concrete store for the
branch technician (user 20), who passes both permission checks. -/
theorem c3_witness :
    ((referral_permission_required dbPerm (some "R1")
        { id := 20, full_name := "Tech Tom", user_type := "Lab Technician" }).isOk = true ↔
      (some 10 = some 20 ∨
       isFacilityWorker dbPerm (some 1) 20 = true ∨
       some 30 = some 20))
    ∧ ((updateTestStatus dbPerm 1 (some "Received")
          { id := 20, full_name := "Tech Tom", user_type := "Lab Technician" } 7).2 =
            .error .permissionDenied ↔
      ¬(some 10 = some 20 ∨ isFacilityWorker dbPerm (some 1) 20 = true)) := by
  have h := c3_permission_characterization dbPerm
    { id := 20, full_name := "Tech Tom", user_type := "Lab Technician" }
    1 (some "Received") 7
    { id := 1, referral := "R1", test := 1, status := "Pending", created_at := 0,
      updated_at := 0, completed_at := none }
    { id := "R1", facility_branch := some 1, patient := 1, clinical_notes := none,
      referred_by := some 10, status := "Pending", referred_at := 0, updated_at := 0,
      completed_at := none }
    (some 30) (by decide) (by decide) (by decide)
  exact h

/-! Claim C6. -/

/-- Every draw of `random.choices` has exactly the requested length. -/
theorem length_randomChoices (pop : List Char) (k : Nat) (pick : Nat → Nat) :
    (randomChoices pop k pick).length = k := by
  simp [randomChoices]

/-- Every drawn character comes from the population. -/
theorem mem_randomChoices (k : Nat) (pick : Nat → Nat) {c : Char}
    (hc : c ∈ randomChoices referralIdChars k pick) : c ∈ referralIdChars := by
  simp only [randomChoices, List.mem_map, List.mem_range] at hc
  obtain ⟨i, _, rfl⟩ := hc
  have hlt : pick i % referralIdChars.length < referralIdChars.length :=
    Nat.mod_lt _ (by decide)
  rw [List.getD_eq_getElem _ _ hlt]
  exact List.getElem_mem hlt

/-- Any code the retry loop returns has length 10, draws all its characters
from the uppercase-and-digit pool, and collides with no existing id. -/
theorem genReferralIdAux_spec (existing : List String) (pick : Nat → Nat → Nat) :
    ∀ fuel attempt code, genReferralIdAux existing pick attempt fuel = some code →
      code.length = 10 ∧ (∀ c ∈ code.toList, c ∈ referralIdChars) ∧ code ∉ existing := by
  intro fuel
  induction fuel with
  | zero =>
    intro attempt code h
    simp [genReferralIdAux] at h
  | succ n ih =>
    intro attempt code h
    simp only [genReferralIdAux] at h
    by_cases hc : (existing.contains
        (String.mk (randomChoices referralIdChars 10 (pick attempt)))) = true
    · rw [if_neg (by rw [hc]; decide)] at h
      exact ih (attempt + 1) code h
    · have hcf := Bool.not_eq_true _ |>.mp hc
      rw [if_pos (by rw [hcf]; decide)] at h
      have hcode : code = String.mk (randomChoices referralIdChars 10 (pick attempt)) :=
        (Option.some.injEq .. |>.mp h).symm
      subst hcode
      refine ⟨?_, ?_, ?_⟩
      · show (String.mk (randomChoices referralIdChars 10 (pick attempt))).data.length = 10
        exact length_randomChoices referralIdChars 10 (pick attempt)
      · intro c hcmem
        exact mem_randomChoices 10 (pick attempt) hcmem
      · simpa using hcf

/-- C6: every id the generator returns is exactly 10 characters, all from
the uppercase letters and digits, and differs from every existing referral
id at generation time. -/
theorem c6_referral_id_spec (existing : List String) (pick : Nat → Nat → Nat)
    (code : String) (h : generate_referral_id existing pick = some code) :
    code.length = 10 ∧ (∀ c ∈ code.toList, c ∈ referralIdChars) ∧ code ∉ existing :=
  genReferralIdAux_spec existing pick 100 0 code h

/-- C6 witness: the constant oracle produces the fresh id AAAAAAAAAA over an
empty referral table. -/
theorem c6_witness :
    ("AAAAAAAAAA" : String).length = 10 ∧
    (∀ c ∈ ("AAAAAAAAAA" : String).toList, c ∈ referralIdChars) ∧
    ("AAAAAAAAAA" : String) ∉ ([] : List String) :=
  c6_referral_id_spec [] (fun _ _ => 0) "AAAAAAAAAA" (by decide)

/-! Claims C4 and C5: referral creation. -/

/-- The clean validation reads only the referral, test, test type and branch
tables, so it is stable under changes to the other tables. -/
theorem cleanRT_congr (db db' : DB) (rt : ReferralTest)
    (h1 : db'.referrals = db.referrals) (h2 : db'.tests = db.tests)
    (h3 : db'.testTypes = db.testTypes) (h4 : db'.branches = db.branches) :
    db'.cleanRT rt = db.cleanRT rt := by
  simp only [DB.cleanRT, DB.findReferral, DB.findTest, h1, h2, cleanReferralTest,
    DB.findBranch, DB.findTestType, h3, h4]

/-- `get_or_create` for the patient only touches the patient table and its
counter. -/
theorem getOrCreatePatient_tables (db : DB) (req : CreateReferralRequest)
    (db1 : DB) (p : Patient) (h : getOrCreatePatient db req = .ok (db1, p)) :
    db1.referralTests = db.referralTests ∧ db1.referrals = db.referrals ∧
    db1.tests = db.tests ∧ db1.testTypes = db.testTypes ∧
    db1.branches = db.branches := by
  simp only [getOrCreatePatient] at h
  split at h
  · simp only [Except.ok.injEq, Prod.mk.injEq] at h
    obtain ⟨hdb, _⟩ := h
    subst hdb
    exact ⟨rfl, rfl, rfl, rfl, rfl⟩
  · simp only [Except.ok.injEq, Prod.mk.injEq] at h
    obtain ⟨hdb, _⟩ := h
    subst hdb
    exact ⟨rfl, rfl, rfl, rfl, rfl⟩
  · simp at h

/-- The ReferralTest creation loop never touches the referral, test, test
type or branch tables. -/
theorem createReferralTests_tables (referral : Referral) (tests : List Test)
    (failTest : Nat → Bool) (now : Nat) :
    ∀ db k,
      (createReferralTests db referral tests k failTest now).1.referrals = db.referrals ∧
      (createReferralTests db referral tests k failTest now).1.tests = db.tests ∧
      (createReferralTests db referral tests k failTest now).1.testTypes = db.testTypes ∧
      (createReferralTests db referral tests k failTest now).1.branches = db.branches := by
  induction tests with
  | nil =>
    intro db k
    simp [createReferralTests]
  | cons t rest ih =>
    intro db k
    simp only [createReferralTests]
    split
    · exact ⟨rfl, rfl, rfl, rfl⟩
    · split
      · exact ⟨rfl, rfl, rfl, rfl⟩
      · exact ih _ _

/-- A row present after the creation loop was either present before or passed
the clean validation of the store the loop ran on. -/
theorem createReferralTests_mem (referral : Referral) (tests : List Test)
    (failTest : Nat → Bool) (now : Nat) :
    ∀ db k (rt : ReferralTest),
      rt ∈ (createReferralTests db referral tests k failTest now).1.referralTests →
      rt ∈ db.referralTests ∨ db.cleanRT rt = .ok () := by
  induction tests with
  | nil =>
    intro db k rt h
    simp only [createReferralTests] at h
    exact Or.inl h
  | cons t rest ih =>
    intro db k rt h
    simp only [createReferralTests] at h
    split at h
    · exact Or.inl h
    · split at h
      · exact Or.inl h
      · rename_i u hcl hft
        rcases ih _ _ rt h with hin | hok
        · rcases mem_upsertRT hin with hin' | rfl
          · exact Or.inl hin'
          · exact Or.inr hcl
        · exact Or.inr hok

/-- `clean` succeeding rules out a facility mismatch between the test type
and the branch of the referral. -/
theorem cleanRT_ok_no_mismatch (db : DB) (rt : ReferralTest)
    (h : db.cleanRT rt = .ok ()) :
    ∀ r, db.findReferral rt.referral = some r →
    ∀ bid, r.facility_branch = some bid →
    ∀ br, db.findBranch bid = some br →
    ∀ t, db.findTest rt.test = some t →
    ∀ ttid, t.test_type = some ttid →
    ∀ tt, db.findTestType ttid = some tt →
    tt.facility = br.facility := by
  intro r hr bid hb br hbr t ht ttid htt tt httt
  simp only [DB.cleanRT, hr, ht, cleanReferralTest, hb, hbr, htt, httt] at h
  by_cases hf : (tt.facility == br.facility) = true
  · simpa using hf
  · rw [if_neg hf] at h
    simp at h

/-- C4: no ReferralTest row persisted by the referral-creation endpoint, even
on a partially failed request, can reference a test whose test type belongs
to a facility other than the facility of the branch of its referral. -/
theorem c4_no_cross_facility_referral_test
    (db : DB) (req : CreateReferralRequest) (user : User)
    (pick : Nat → Nat → Nat) (now : Nat) (failTest : Nat → Bool) (rt : ReferralTest)
    (hmem : rt ∈ (createReferral db req user pick now failTest).1.referralTests)
    (hnew : rt ∉ db.referralTests) :
    ∀ r, (createReferral db req user pick now failTest).1.findReferral rt.referral = some r →
    ∀ bid, r.facility_branch = some bid →
    ∀ br, (createReferral db req user pick now failTest).1.findBranch bid = some br →
    ∀ t, (createReferral db req user pick now failTest).1.findTest rt.test = some t →
    ∀ ttid, t.test_type = some ttid →
    ∀ tt, (createReferral db req user pick now failTest).1.findTestType ttid = some tt →
    tt.facility = br.facility := by
  have hclean : (createReferral db req user pick now failTest).1.cleanRT rt = .ok () := by
    simp only [createReferral] at hmem ⊢
    by_cases hu : (user.user_type == "Medical Practitioner") = true
    · rw [if_neg (by rw [hu]; decide)] at hmem ⊢
      cases hval : validateCreateReferral db req with
      | error e =>
        rw [hval] at hmem
        simp only at hmem
        exact absurd hmem hnew
      | ok pr =>
        obtain ⟨fb, tests⟩ := pr
        rw [hval] at hmem
        simp only [createReferralFromValidated] at hmem ⊢
        cases hpat : getOrCreatePatient db req with
        | error e =>
          rw [hpat] at hmem
          simp only at hmem
          exact absurd hmem hnew
        | ok pr1 =>
          obtain ⟨db1, patient⟩ := pr1
          rw [hpat] at hmem
          simp only at hmem ⊢
          obtain ⟨hrt1, hr1, ht1, htt1, hb1⟩ := getOrCreatePatient_tables db req db1 patient hpat
          cases hgen : generate_referral_id (db1.referrals.map (fun r => r.id)) pick with
          | none =>
            rw [hgen] at hmem
            simp only at hmem
            rw [hrt1] at hmem
            exact absurd hmem hnew
          | some rid =>
            rw [hgen] at hmem
            simp only at hmem ⊢
            rcases createReferralTests_mem
                (newReferralRow rid fb patient.id req user.id now) tests failTest now
                { db1 with
                  referrals := newReferralRow rid fb patient.id req user.id now :: db1.referrals }
                0 rt hmem with hin | hok
            · exact absurd (by rw [← hrt1]; exact hin) hnew
            · have htab := createReferralTests_tables
                (newReferralRow rid fb patient.id req user.id now) tests failTest now
                { db1 with
                  referrals := newReferralRow rid fb patient.id req user.id now :: db1.referrals }
                0
              rw [cleanRT_congr _ _ rt htab.1 htab.2.1 htab.2.2.1 htab.2.2.2]
              exact hok
    · have hmem' : rt ∈ db.referralTests := by
        rw [if_pos (by rw [Bool.not_eq_true _ |>.mp hu]; decide)] at hmem
        simpa using hmem
      exact absurd hmem' hnew
  intro r hr bid hb br hbr t ht ttid htt tt httt
  exact cleanRT_ok_no_mismatch _ rt hclean r hr bid hb br hbr t ht ttid htt tt httt

/-- C4 witness: on the two-facility store the first created ReferralTest
resolves to test type Blood of facility 1 and branch Main of facility 1, and
the theorem confirms the facilities agree. -/
theorem c4_witness :
    ({ id := 1, facility := some 1, name := "Blood" } : TestType).facility =
    ({ id := 1, facility := some 1, name := "Main", is_active := true } : FacilityBranch).facility :=
  c4_no_cross_facility_referral_test dbCreate reqCreate practUser pick0 0 (fun _ => false)
    { id := 1, referral := "AAAAAAAAAA", test := 1, status := "Pending", created_at := 0,
      updated_at := 0, completed_at := none }
    (by decide) (by decide)
    { id := "AAAAAAAAAA", facility_branch := some 1, patient := 1, clinical_notes := none,
      referred_by := some 10, status := "Pending", referred_at := 0, updated_at := 0,
      completed_at := none }
    (by decide) 1 (by decide)
    { id := 1, facility := some 1, name := "Main", is_active := true }
    (by decide)
    { id := 1, test_type := some 1, name := "CBC" }
    (by decide) 1 (by decide)
    { id := 1, facility := some 1, name := "Blood" }
    (by decide)

/-! Claim C5. -/

/-- C5, counterexample: when the second ReferralTest insert fails, the
request errors but the Referral and the first ReferralTest remain persisted,
although the store held neither before the request: creation is not
all-or-nothing. -/
theorem c5_counterexample :
    (createReferral dbCreate reqCreate practUser pick0 0 failSecond).2 =
      .error .dbFailure ∧
    (createReferral dbCreate reqCreate practUser pick0 0 failSecond).1.referrals.length = 1 ∧
    (createReferral dbCreate reqCreate practUser pick0 0 failSecond).1.referralTests.length = 1 ∧
    dbCreate.referrals.length = 0 ∧ dbCreate.referralTests.length = 0 :=
  ⟨rfl, by decide, by decide, by decide, by decide⟩

/-- The validation step never reports a database write failure. -/
theorem validateCreateReferral_not_dbFailure (db : DB) (req : CreateReferralRequest) :
    validateCreateReferral db req ≠ .error .dbFailure := by
  simp only [validateCreateReferral]
  repeat' split
  all_goals simp

/-- The patient step never reports a database write failure. -/
theorem getOrCreatePatient_not_dbFailure (db : DB) (req : CreateReferralRequest) :
    getOrCreatePatient db req ≠ .error .dbFailure := by
  simp only [getOrCreatePatient]
  repeat' split
  all_goals simp

/-- C5, amended: referral creation is not wrapped in a transaction; when a
ReferralTest insert fails at the database level the freshly created Referral
(one whose id matches no referral of the original store) remains persisted,
together with every ReferralTest insert that preceded the failure. -/
theorem c5_partial_persistence
    (db : DB) (req : CreateReferralRequest) (user : User)
    (pick : Nat → Nat → Nat) (now : Nat) (failTest : Nat → Bool)
    (h : (createReferral db req user pick now failTest).2 = .error .dbFailure) :
    ∃ r, r ∈ (createReferral db req user pick now failTest).1.referrals ∧
      ∀ r0 ∈ db.referrals, r.id ≠ r0.id := by
  simp only [createReferral] at h ⊢
  by_cases hu : (user.user_type == "Medical Practitioner") = true
  · rw [if_neg (by rw [hu]; decide)] at h ⊢
    cases hval : validateCreateReferral db req with
    | error e =>
      rw [hval] at h
      simp only at h
      have he : e = .dbFailure := by simpa using h
      subst he
      exact absurd hval (validateCreateReferral_not_dbFailure db req)
    | ok pr =>
      obtain ⟨fb, tests⟩ := pr
      rw [hval] at h
      simp only [createReferralFromValidated] at h ⊢
      cases hpat : getOrCreatePatient db req with
      | error e =>
        rw [hpat] at h
        simp only at h
        have he : e = .dbFailure := by simpa using h
        subst he
        exact absurd hpat (getOrCreatePatient_not_dbFailure db req)
      | ok pr1 =>
        obtain ⟨db1, patient⟩ := pr1
        rw [hpat] at h
        simp only at h ⊢
        obtain ⟨hrt1, hr1, ht1, htt1, hb1⟩ := getOrCreatePatient_tables db req db1 patient hpat
        cases hgen : generate_referral_id (db1.referrals.map (fun r => r.id)) pick with
        | none =>
          rw [hgen] at h
          simp at h
        | some rid =>
          rw [hgen] at h
          simp only at h ⊢
          have htab := createReferralTests_tables
            (newReferralRow rid fb patient.id req user.id now) tests failTest now
            { db1 with
              referrals := newReferralRow rid fb patient.id req user.id now :: db1.referrals }
            0
          refine ⟨newReferralRow rid fb patient.id req user.id now, ?_, ?_⟩
          · rw [htab.1]
            exact List.mem_cons_self _ _
          · intro r0 hr0 heq
            have hfresh :=
              (genReferralIdAux_spec (db1.referrals.map (fun r : Referral => r.id))
                pick 100 0 rid hgen).2.2
            exact hfresh (List.mem_map.mpr ⟨r0, by rw [hr1]; exact hr0, heq.symm⟩)
  · rw [if_pos (by rw [Bool.not_eq_true _ |>.mp hu]; decide)] at h
    simp at h

/-- C5 witness: the amended theorem applied to the failing concrete request
exhibits the persisted referral. -/
theorem c5_witness :
    ∃ r, r ∈ (createReferral dbCreate reqCreate practUser pick0 0 failSecond).1.referrals ∧
      ∀ r0 ∈ dbCreate.referrals, r.id ≠ r0.id :=
  c5_partial_persistence dbCreate reqCreate practUser pick0 0 failSecond rfl

/-! Claims C7 and C8: the referral list endpoints. -/

/-- C7: on the practitioner endpoint the page parameters default to page 1
with 10 items, and both a past-the-end page (99) and a non-positive page (0)
clamp to the last page instead of erroring; but on the technician endpoint
the identically written pagination is unreachable: the view crashes with
ValueError while building the branch filter from the dictionary returned by
`get_user_branches`, before pagination runs. -/
theorem c7_pagination_eval :
    (getPractitionerReferrals dbLists docDan none none "").toOption.map
        (fun x => (x.1.current_page, x.1.per_page, x.1.items)) =
      some (1, 10, ["R3", "R2", "R1"]) ∧
    (getPractitionerReferrals dbLists docDan (some 99) (some 2) "").toOption.map
        (fun x => (x.1.current_page, x.1.total_pages, x.1.items)) =
      some (2, 2, ["R1"]) ∧
    (getPractitionerReferrals dbLists docDan (some 0) (some 2) "").toOption.map
        (fun x => (x.1.current_page, x.1.items)) = some (2, ["R1"]) ∧
    getTechnicianReferrals dbLists techTia none none (some 99) (some 2) "" =
      .error .valueError :=
  ⟨rfl, rfl, rfl, rfl⟩

/-- C8: a practitioner search matching nothing succeeds with an empty list
and `total_referrals = 0`, but the same request on the technician endpoint
crashes with ValueError in the branch filter before the search is ever
applied. -/
theorem c8_empty_search_eval :
    (getPractitionerReferrals dbLists docDan none none "xyzzy").toOption.map
        (fun x => (x.1.items, x.1.total_count, x.2.total_referrals)) =
      some ([], 0, 0) ∧
    getTechnicianReferrals dbLists techTia none none none none "xyzzy" =
      .error .valueError :=
  ⟨rfl, rfl⟩

end TetraDX
